import Mathlib

/-!
# Verification of the filtering and viewport logic of `src/app.py`

The repository is a Streamlit dashboard overlaying NWS flash-flood-warning
polygons with MRMS rainfall rasters.  Its testable core consists of two pure
functions in `src/app.py`:

* `feature_matches_county_state(feature, county_q, state_q)` (lines 74-86):
  a substring filter over the `properties.areaDesc` field of a GeoJSON feature;
* `compute_initial_map_center(geojson)` (lines 88-115): a viewport heuristic
  taking the first usable Polygon / MultiPolygon / Point geometry, with a
  CONUS fallback, the whole loop wrapped in one `try/except`;

plus their composition at the call sites (lines 148-158): a list-comprehension
filter and `features or all_features` feeding the viewport computation.

We embed the dynamically-typed values of Python as an inductive `JVal` (JSON-like
values, numbers as exact rationals), and Python exceptions as an `Except PyErr`
monad.  Dictionary access (`.get`), indexing, truthiness, iteration, tuple
unpacking and numeric summation are modelled with the exact raising behaviour
of CPython on these value shapes; `try/except Exception: pass` around the
viewport loop becomes a total function mapping any `.error` to the fallback.
-/

namespace FlashFlood

/-- Python exception classes that the embedded code can raise. -/
inductive PyErr where
  | attributeError
  | indexError
  | typeError
  | valueError
deriving DecidableEq

/-- A Python/JSON value, as handled by `src/app.py`.  Numbers are modelled as
exact rationals; objects are association lists (first binding wins on lookup,
matching the unique keys of a dict). -/
inductive JVal where
  | null
  | bool (b : Bool)
  | num (q : ℚ)
  | str (s : String)
  | arr (elems : List JVal)
  | obj (entries : List (String × JVal))

/-- Python `v == s` for a string literal `s`: true exactly when `v` is that
string (equality between a non-string value and a string is `False`). -/
def isStrEq (v : JVal) (s : String) : Bool :=
  match v with
  | .str t => t = s
  | _ => false

/-- ASCII lower-casing, Python `str.lower` on the ASCII data the app meets. -/
def pyLower (s : String) : String :=
  ⟨s.data.map Char.toLower⟩

/-- Python `str.strip()`: drop leading and trailing whitespace. -/
def pyStrip (s : String) : String :=
  ⟨((s.data.dropWhile Char.isWhitespace).reverse.dropWhile Char.isWhitespace).reverse⟩

/-- Python truthiness of a value (`bool(v)`): `None`, `False`, zero, and empty
strings/lists/dicts are falsy. -/
def truthy : JVal → Bool
  | .null => false
  | .bool b => b
  | .num q => q ≠ 0
  | .str s => s ≠ ""
  | .arr xs => ¬ xs.isEmpty
  | .obj kvs => ¬ kvs.isEmpty

/-- Python `v.get(key, dflt)`: only dicts have `.get`; any other receiver
raises `AttributeError`. -/
def pyGet (v : JVal) (key : String) (dflt : JVal) : Except PyErr JVal :=
  match v with
  | .obj kvs => .ok (((kvs.find? fun kv => kv.1 = key).map Prod.snd).getD dflt)
  | _ => .error .attributeError

/-- Python `v[i]` for a non-negative index: arrays index positionally
(`IndexError` past the end); indexing any non-sequence raises `TypeError`.
Indexing a string yields a one-character string. -/
def pyIndex (v : JVal) (i : Nat) : Except PyErr JVal :=
  match v with
  | .arr xs =>
    match xs[i]? with
    | some x => .ok x
    | none => .error .indexError
  | .str s =>
    match s.data[i]? with
    | some c => .ok (.str c.toString)
    | none => .error .indexError
  | _ => .error .typeError

/-- Python iteration `for x in v` over the value shapes the app meets:
lists iterate their elements, strings their characters; iterating any other
value used here raises `TypeError`. -/
def pyIter (v : JVal) : Except PyErr (List JVal) :=
  match v with
  | .arr xs => .ok xs
  | .str s => .ok (s.data.map fun c => .str c.toString)
  | _ => .error .typeError

/-- Numeric coercion as used by Python `sum`: ints/floats are numbers and
`bool` is a number (`True == 1`); anything else makes `sum` raise
`TypeError`. -/
def toNumQ : JVal → Except PyErr ℚ
  | .num q => .ok q
  | .bool b => .ok (if b then 1 else 0)
  | _ => .error .typeError

/-- `sum(c[i] for c in cs)`: index each element at `i` and add the numeric
values, raising as Python would on a bad element. -/
def sumCoord (i : Nat) : List JVal → Except PyErr ℚ
  | [] => .ok 0
  | c :: rest =>
    match pyIndex c i with
    | .error e => .error e
    | .ok v =>
      match toNumQ v with
      | .error e => .error e
      | .ok q =>
        match sumCoord i rest with
        | .error e => .error e
        | .ok s => .ok (q + s)

/-- The shared averaging code of the Polygon/MultiPolygon branches
(`src/app.py` lines 100-102 and 107-109):
`lon = sum(c[0] for c in coords)/len(coords)`, likewise `lat` with `c[1]`,
returning the `(lat, lon)` pair.  Call sites guard `coords` to be truthy. -/
def avgCoords (coords : JVal) : Except PyErr (JVal × JVal) :=
  match pyIter coords with
  | .error e => .error e
  | .ok cs =>
    match sumCoord 0 cs with
    | .error e => .error e
    | .ok lonSum =>
      match sumCoord 1 cs with
      | .error e => .error e
      | .ok latSum =>
        .ok (.num (latSum / (cs.length : ℚ)), .num (lonSum / (cs.length : ℚ)))

/-- Python 2-tuple unpacking `lon, lat = v`: succeeds exactly on a sequence of
length two (`ValueError` on other lengths, `TypeError` on non-iterables). -/
def unpack2 : JVal → Except PyErr (JVal × JVal)
  | .arr [a, b] => .ok (a, b)
  | .arr _ => .error .valueError
  | .str s =>
    match s.data with
    | [c1, c2] => .ok (.str c1.toString, .str c2.toString)
    | _ => .error .valueError
  | _ => .error .typeError

/-- Lines 78-79 of `src/app.py`, up to the lower-casing:
`props = feature.get("properties", {})` followed by
`props.get("areaDesc") or ""`, requiring the result to be a string so that
`.lower()` succeeds (a falsy `areaDesc` — absent, `None`, `0`, `""` — becomes
the empty string; a truthy non-string raises `AttributeError` at `.lower()`).
Returns the raw (not yet lower-cased) string. -/
def getAreaDescRaw (feature : JVal) : Except PyErr String :=
  match pyGet feature "properties" (JVal.obj []) with
  | .error e => .error e
  | .ok props =>
    match pyGet props "areaDesc" JVal.null with
    | .error e => .error e
    | .ok v =>
      match (if truthy v then v else JVal.str "") with
      | .str s => .ok s
      | _ => .error .attributeError

/-- Executable substring test on character lists (the Python test `needle in hay`). -/
def subOf (needle : List Char) : List Char → Bool
  | [] => needle.isEmpty
  | c :: rest => needle.isPrefixOf (c :: rest) || subOf needle rest

/-- The Python test `needle in hay` on strings. -/
def strIn (needle hay : String) : Bool :=
  subOf needle.data hay.data

/-- `feature_matches_county_state` (`src/app.py` lines 74-86), with the Python
raising behaviour made explicit in `Except`. -/
def feature_matches_county_state (feature : JVal) (county_q state_q : String) :
    Except PyErr Bool :=
  if county_q = "" ∧ (state_q = "" ∨ state_q = "(Any)") then
    .ok true
  else
    match getAreaDescRaw feature with
    | .error e => .error e
    | .ok ad =>
      let area_desc := pyLower ad
      let county_ok := if county_q ≠ "" then strIn (pyLower (pyStrip county_q)) area_desc else true
      let state_ok :=
        if state_q ≠ "" ∧ state_q ≠ "(Any)" then strIn (pyLower state_q) area_desc else true
      .ok (county_ok && state_ok)

/-- One iteration of the loop in `compute_initial_map_center`
(`src/app.py` lines 94-112) on a single feature: `.ok (some (lat, lon))` when
the feature determines the center (the early `return lat, lon, 6`),
`.ok none` when the loop falls through to the next feature, `.error` when the
body raises (which the surrounding `try` turns into the CONUS fallback). -/
def featStep (feat : JVal) : Except PyErr (Option (JVal × JVal)) :=
  match pyGet feat "geometry" JVal.null with
  | .error e => .error e
  | .ok geomRaw =>
    let geom := if truthy geomRaw then geomRaw else JVal.obj []
    match pyGet geom "type" JVal.null with
    | .error e => .error e
    | .ok gtype =>
      if isStrEq gtype "Polygon" then
        match pyGet geom "coordinates" (JVal.arr []) with
        | .error e => .error e
        | .ok coordsAll =>
          match pyIndex coordsAll 0 with
          | .error e => .error e
          | .ok coords =>
            if truthy coords then
              match avgCoords coords with
              | .error e => .error e
              | .ok c => .ok (some c)
            else
              .ok none
      else if isStrEq gtype "MultiPolygon" then
        match pyGet geom "coordinates" (JVal.arr []) with
        | .error e => .error e
        | .ok polys =>
          if truthy polys then
            match pyIndex polys 0 with
            | .error e => .error e
            | .ok p0 =>
              if truthy p0 then
                match pyIndex p0 0 with
                | .error e => .error e
                | .ok p00 =>
                  if truthy p00 then
                    match avgCoords p00 with
                    | .error e => .error e
                    | .ok c => .ok (some c)
                  else
                    .ok none
              else
                .ok none
          else
            .ok none
      else if isStrEq gtype "Point" then
        match pyGet geom "coordinates" (JVal.arr [.num (-98.583), .num 39.833]) with
        | .error e => .error e
        | .ok cv =>
          match unpack2 cv with
          | .error e => .error e
          | .ok (lon, lat) => .ok (some (lat, lon))
      else
        .ok none

/-- The `for feat in ...` loop of `compute_initial_map_center`: first feature
that returns a center wins; an exception anywhere aborts the whole loop. -/
def cimcLoop : List JVal → Except PyErr (Option (JVal × JVal))
  | [] => .ok none
  | f :: rest =>
    match featStep f with
    | .error e => .error e
    | .ok (some c) => .ok (some c)
    | .ok none => cimcLoop rest

/-- `compute_initial_map_center` (`src/app.py` lines 88-115).  The
`try/except Exception: pass` wrapping the whole loop body means any raised
exception yields the CONUS fallback `(39.833, -98.583, 4)`; a found center is
returned with zoom 6. -/
def compute_initial_map_center (geojson : JVal) : JVal × JVal × Nat :=
  let body : Except PyErr (Option (JVal × JVal)) :=
    match pyGet geojson "features" (JVal.arr []) with
    | .error e => .error e
    | .ok featsV =>
      match pyIter featsV with
      | .error e => .error e
      | .ok feats => cimcLoop feats
  match body with
  | .ok (some (lat, lon)) => (lat, lon, 6)
  | _ => (.num 39.833, .num (-98.583), 4)

/-- The wrapper built at the call site (`src/app.py` line 157):
`{"type": "FeatureCollection", "features": feats}`. -/
def mkFC (feats : List JVal) : JVal :=
  .obj [("type", .str "FeatureCollection"), ("features", .arr feats)]

/-- The list-comprehension filter (`src/app.py` lines 149-151):
`[f for f in all_features if feature_matches_county_state(f, cq, sq)]`.
If the predicate raises on any element the whole comprehension raises. -/
def filterFeatures : List JVal → String → String → Except PyErr (List JVal)
  | [], _, _ => .ok []
  | f :: rest, cq, sq =>
    match feature_matches_county_state f cq sq with
    | .error e => .error e
    | .ok b =>
      match filterFeatures rest cq sq with
      | .error e => .error e
      | .ok out => .ok (if b then f :: out else out)

/-- The viewport the application renders (`src/app.py` lines 149-158):
filter `all_features`, then compute the initial map center from
`features or all_features` (Python `or`: the filtered list when non-empty,
otherwise the unfiltered one). -/
def app_viewport (all_features : List JVal) (cq sq : String) :
    Except PyErr (JVal × JVal × Nat) :=
  match filterFeatures all_features cq sq with
  | .error e => .error e
  | .ok features =>
    .ok (compute_initial_map_center
      (mkFC (if features.isEmpty then all_features else features)))

/-! ## Concrete fixtures used by the claims -/

/-- A feature with a Point geometry at `[-95.0, 29.0]`. -/
def pointFeature : JVal :=
  .obj [("type", .str "Feature"),
        ("geometry", .obj [("type", .str "Point"),
                           ("coordinates", .arr [.num (-95), .num 29])])]

/-- A feature whose Point geometry lacks a `coordinates` entry. -/
def pointNoCoords : JVal :=
  .obj [("type", .str "Feature"),
        ("geometry", .obj [("type", .str "Point")])]

/-- The demonstration ring `[[-97,30],[-96,30],[-96,31],[-97,31]]` as
`(lon, lat)` pairs. -/
def demoRing : List (ℚ × ℚ) := [(-97, 30), (-96, 30), (-96, 31), (-97, 31)]

/-- A linear ring of numeric `[lon, lat]` pairs as a JSON array. -/
def ringJ (ring : List (ℚ × ℚ)) : JVal :=
  .arr (ring.map fun p => .arr [.num p.1, .num p.2])

/-- A feature with a Polygon geometry whose first linear ring is `ring`
(further rings `moreRings` are ignored by the code). -/
def mkPolyFeature (ring : List (ℚ × ℚ)) (moreRings : List JVal) : JVal :=
  .obj [("type", .str "Feature"),
        ("geometry", .obj [("type", .str "Polygon"),
                           ("coordinates", .arr (ringJ ring :: moreRings))])]

/-- A feature with the unsupported geometry type `LineString` and arbitrary
coordinates value `cv`. -/
def lsFeature (cv : JVal) : JVal :=
  .obj [("type", .str "Feature"),
        ("geometry", .obj [("type", .str "LineString"),
                           ("coordinates", cv)])]

/-- A malformed feature: a Polygon whose `coordinates` array is empty, so that
`geom.get("coordinates", [])[0]` raises `IndexError`. -/
def badPolyFeature : JVal :=
  .obj [("type", .str "Feature"),
        ("geometry", .obj [("type", .str "Polygon"),
                           ("coordinates", .arr [])])]

/-- A feature whose `areaDesc` mentions Travis County. -/
def travisFeat : JVal :=
  .obj [("properties", .obj [("areaDesc", .str "Travis County, TX")])]

/-- A feature with no properties at all. -/
def nopropsFeat : JVal := .obj []

/-- A malformed feature whose `properties` entry is a number, not a mapping. -/
def badPropsFeat : JVal := .obj [("properties", .num 1)]

/-! ## Helper lemmas -/

/-- `subOf` decides list containment as a contiguous sublist. -/
theorem subOf_iff (n : List Char) : ∀ h : List Char, subOf n h = true ↔ n <:+: h
  | [] => by simp [subOf]
  | c :: r => by
    rw [ List.infix_cons_iff]
    simp [subOf, subOf_iff n r]

/-- A non-empty string lower-cases to a string that contains no substring
other than the empty one; in particular it is not contained in `""`. -/
theorem strIn_pyLower_empty (n : String) (h : n ≠ "") : strIn (pyLower n) "" = false := by
  obtain ⟨l⟩ := n
  cases l with
  | nil => exact absurd rfl h
  | cons c cs => rfl

/-- Evaluating `compute_initial_map_center` on a wrapped feature list reduces
to the loop over the list. -/
theorem compute_mkFC (feats : List JVal) :
    compute_initial_map_center (mkFC feats) =
      match cimcLoop feats with
      | .ok (some (lat, lon)) => (lat, lon, 6)
      | _ => (.num 39.833, .num (-98.583), 4) := rfl

/-- Summing index 0 of a ring of numeric pairs adds up the longitudes. -/
theorem sumCoord_fst (l : List (ℚ × ℚ)) :
    sumCoord 0 (l.map fun p => JVal.arr [.num p.1, .num p.2]) =
      .ok (l.map Prod.fst).sum := by
  induction l with
  | nil => rfl
  | cons p tl ih => simp [sumCoord, pyIndex, toNumQ, ih]

/-- Summing index 1 of a ring of numeric pairs adds up the latitudes. -/
theorem sumCoord_snd (l : List (ℚ × ℚ)) :
    sumCoord 1 (l.map fun p => JVal.arr [.num p.1, .num p.2]) =
      .ok (l.map Prod.snd).sum := by
  induction l with
  | nil => rfl
  | cons p tl ih => simp [sumCoord, pyIndex, toNumQ, ih]

/-- On a feature built from a non-empty ring of numeric pairs, one loop step
returns the arithmetic mean of the ring vertices. -/
theorem featStep_poly (ring : List (ℚ × ℚ)) (more : List JVal) (h : ring ≠ []) :
    featStep (mkPolyFeature ring more) =
      .ok (some (.num ((ring.map Prod.snd).sum / (ring.length : ℚ)),
                 .num ((ring.map Prod.fst).sum / (ring.length : ℚ)))) := by
  obtain ⟨p, tl, rfl⟩ := List.exists_cons_of_ne_nil h
  have h0 := sumCoord_fst (p :: tl)
  have h1 := sumCoord_snd (p :: tl)
  simp only [List.map_cons] at h0 h1
  simp [featStep, mkPolyFeature, ringJ, pyGet, truthy, isStrEq, pyIndex, avgCoords, pyIter,
        h0, h1]

/-- A feature with geometry type `LineString` is skipped by the loop wherever
it occurs. -/
theorem cimcLoop_skip (cv : JVal) (pre rest : List JVal) :
    cimcLoop (pre ++ lsFeature cv :: rest) = cimcLoop (pre ++ rest) := by
  induction pre with
  | nil =>
    have hstep : featStep (lsFeature cv) = .ok none := rfl
    simp [cimcLoop, hstep]
  | cons a pre ih =>
    simp only [List.cons_append, cimcLoop, List.append_eq]
    rw [ih]

/-! ## Claims -/

/-- C1, counterexample: the claim says a malformed feature (the Polygon with an
empty `coordinates` array) falls through to the next feature, so the later
Point feature would determine the viewport `(29, -95, 6)`.  The code instead
catches the raised `IndexError` outside the loop and returns the CONUS
fallback `(39.833, -98.583, 4)`, which differs. -/
theorem C1_counterexample :
    compute_initial_map_center (mkFC [badPolyFeature, pointFeature]) =
      (.num 39.833, .num (-98.583), 4) ∧
    compute_initial_map_center (mkFC [pointFeature]) = (.num 29, .num (-95), 6) ∧
    ((JVal.num 39.833, JVal.num (-98.583), (4 : Nat)) ≠
      (JVal.num 29, JVal.num (-95), (6 : Nat))) :=
  ⟨rfl, rfl, by simp⟩

/-- C1, amended: a feature whose geometry processing raises is caught, and the
computation goes directly to the CONUS fallback, skipping all remaining
features; a feature whose geometry is unusable without raising falls through
to the next feature.  No error propagates (the embedded function is total). -/
theorem C1_amended (f : JVal) (rest : List JVal) :
    (∀ e, featStep f = .error e →
      compute_initial_map_center (mkFC (f :: rest)) = (.num 39.833, .num (-98.583), 4)) ∧
    (featStep f = .ok none →
      compute_initial_map_center (mkFC (f :: rest)) = compute_initial_map_center (mkFC rest)) := by
  constructor
  · intro e he
    rw [compute_mkFC]
    simp only [cimcLoop]
    rw [he]
  · intro hn
    rw [compute_mkFC, compute_mkFC]
    simp only [cimcLoop]
    rw [hn]

/-- C1, witness: the malformed Polygon raises and aborts to the fallback; the
unsupported LineString feature falls through to the next feature. -/
theorem C1_witness :
    compute_initial_map_center (mkFC [badPolyFeature, pointFeature]) =
      (.num 39.833, .num (-98.583), 4) ∧
    compute_initial_map_center (mkFC [lsFeature JVal.null, pointFeature]) =
      compute_initial_map_center (mkFC [pointFeature]) :=
  ⟨(C1_amended badPolyFeature [pointFeature]).1 .indexError rfl,
   (C1_amended (lsFeature JVal.null) [pointFeature]).2 rfl⟩

/-- C2, counterexample: the claim says a malformed `properties` value (here a
number) degrades to returning false; the code instead raises
`AttributeError` at `props.get("areaDesc")`. -/
theorem C2_counterexample :
    feature_matches_county_state badPropsFeat "x" "" = .error .attributeError ∧
    feature_matches_county_state badPropsFeat "x" "" ≠ .ok false :=
  ⟨rfl, by
    simp [show feature_matches_county_state badPropsFeat "x" "" = .error .attributeError
      from rfl]⟩

/-- C2, amended: `matches` never raises when the `areaDesc` extraction
succeeds (properties absent or a mapping, `areaDesc` absent, falsy, or a
string); and when the extracted `areaDesc` is empty, any county query that is
non-empty after stripping, or any state query other than `""` and `"(Any)"`,
makes the result `false` rather than an error. -/
theorem C2_amended (f : JVal) (cq sq ad : String) (h : getAreaDescRaw f = .ok ad) :
    (∃ b, feature_matches_county_state f cq sq = .ok b) ∧
    (ad = "" → pyStrip cq ≠ "" ∨ (sq ≠ "" ∧ sq ≠ "(Any)") →
      feature_matches_county_state f cq sq = .ok false) := by
  constructor
  · by_cases hc : cq = "" ∧ (sq = "" ∨ sq = "(Any)")
    · exact ⟨true, by simp only [feature_matches_county_state]; rw [if_pos hc]⟩
    · exact ⟨_, by simp only [feature_matches_county_state]; rw [if_neg hc, h]⟩
  · rintro rfl hq
    have hc : ¬(cq = "" ∧ (sq = "" ∨ sq = "(Any)")) := by
      rcases hq with h1 | ⟨h2a, h2b⟩
      · rintro ⟨rfl, -⟩; exact h1 rfl
      · rintro ⟨-, hsq⟩
        rcases hsq with rfl | rfl
        · exact h2a rfl
        · exact h2b rfl
    simp only [feature_matches_county_state]
    rw [if_neg hc, h]
    rcases hq with h1 | ⟨h2a, h2b⟩
    · have hcq : cq ≠ "" := by rintro rfl; exact h1 rfl
      simp [hcq, show pyLower "" = "" from rfl, strIn_pyLower_empty _ h1]
    · simp [h2a, h2b, show pyLower "" = "" from rfl, strIn_pyLower_empty _ h2a]

/-- C2, witness: a feature with no properties at all, queried with a real
county string, yields `false` without raising. -/
theorem C2_witness : feature_matches_county_state nopropsFeat "travis" "" = .ok false :=
  (C2_amended nopropsFeat "travis" "" "" rfl).2 rfl (Or.inl (by decide))

/-- C3: whenever the filter succeeds, its output is a subsequence of the
input list: same elements, same relative order (the embedding is pure, so the
input list is returned unchanged aside from selection). -/
theorem C3_filter_sublist (L : List JVal) (cq sq : String) (out : List JVal)
    (h : filterFeatures L cq sq = .ok out) : List.Sublist out L := by
  induction L generalizing out with
  | nil =>
    simp only [filterFeatures, Except.ok.injEq] at h
    subst h
    exact List.Sublist.refl []
  | cons f rest ih =>
    simp only [filterFeatures] at h
    cases hm : feature_matches_county_state f cq sq with
    | error e => rw [hm] at h; cases h
    | ok b =>
      rw [hm] at h
      cases hr : filterFeatures rest cq sq with
      | error e => rw [hr] at h; cases h
      | ok out2 =>
        rw [hr] at h
        cases b with
        | false =>
          simp only [Bool.false_eq_true, if_false, Except.ok.injEq] at h
          subst h
          exact List.Sublist.cons f (ih out2 hr)
        | true =>
          simp only [if_true, Except.ok.injEq] at h
          subst h
          exact List.Sublist.cons₂ f (ih out2 hr)

/-- C3, witness: filtering a two-feature list by county "travis" keeps exactly
the Travis feature, a subsequence of the input. -/
theorem C3_witness : List.Sublist [travisFeat] [nopropsFeat, travisFeat] :=
  C3_filter_sublist [nopropsFeat, travisFeat] "travis" "(Any)" [travisFeat] rfl

/-- C4: with an empty county query and a state query that is empty or the
sentinel `"(Any)"`, `matches` returns true unconditionally, for any feature,
including one with no properties. -/
theorem C4_empty_queries (f : JVal) (sq : String) (h : sq = "" ∨ sq = "(Any)") :
    feature_matches_county_state f "" sq = .ok true := by
  rcases h with rfl | rfl <;> rfl

/-- C4, witness: a feature with no properties matches the empty queries. -/
theorem C4_witness : feature_matches_county_state nopropsFeat "" "" = .ok true :=
  C4_empty_queries nopropsFeat "" (Or.inl rfl)

/-- C5: when the `areaDesc` extraction succeeds with string `ad` (a missing
`areaDesc` extracts as `""`), `matches(f, "travis", "(Any)")` is true exactly
when the lower-cased `ad` contains the substring `"travis"`. -/
theorem C5_travis_iff (f : JVal) (ad : String) (h : getAreaDescRaw f = .ok ad) :
    feature_matches_county_state f "travis" "(Any)" = .ok true ↔
      "travis".data <:+: (pyLower ad).data := by
  simp only [feature_matches_county_state]
  rw [if_neg (by simp), h]
  simp [show pyLower (pyStrip "travis") = "travis" from rfl, strIn, subOf_iff]

/-- C5, witness: a feature whose `areaDesc` is "Travis County, TX" matches the
query "travis". -/
theorem C5_witness : feature_matches_county_state travisFeat "travis" "(Any)" = .ok true :=
  (C5_travis_iff travisFeat "Travis County, TX" rfl).mpr ((subOf_iff _ _).mp rfl)

/-- C6: a leading Polygon feature with a non-empty first ring of numeric
`[lon, lat]` pairs yields the viewport whose latitude and longitude are the
arithmetic means of the ring vertices, with zoom 6. -/
theorem C6_polygon_mean (ring : List (ℚ × ℚ)) (moreRings rest : List JVal) (h : ring ≠ []) :
    compute_initial_map_center (mkFC (mkPolyFeature ring moreRings :: rest)) =
      (.num ((ring.map Prod.snd).sum / (ring.length : ℚ)),
       .num ((ring.map Prod.fst).sum / (ring.length : ℚ)), 6) := by
  rw [compute_mkFC]
  simp only [cimcLoop]
  rw [featStep_poly ring moreRings h]

/-- C6, witness: the demonstration ring `[[-97,30],[-96,30],[-96,31],[-97,31]]`
yields center `(30.5, -96.5)` and zoom 6. -/
theorem C6_witness :
    compute_initial_map_center (mkFC [mkPolyFeature demoRing []]) =
      (.num 30.5, .num (-96.5), 6) := by
  rw [C6_polygon_mean demoRing [] [] (by simp [demoRing])]
  norm_num [demoRing]

/-- C7: an empty FeatureCollection yields exactly the CONUS fallback viewport
`(39.833, -98.583, 4)`. -/
theorem C7_empty_fallback :
    compute_initial_map_center (mkFC []) = (.num 39.833, .num (-98.583), 4) := rfl

/-- C8: a leading Point feature with coordinates `[-95.0, 29.0]` yields
`(29.0, -95.0, 6)`; a leading Point feature whose geometry lacks a
`coordinates` entry yields the fixed default center `(39.833, -98.583)` with
zoom 6. -/
theorem C8_point (rest rest2 : List JVal) :
    compute_initial_map_center (mkFC (pointFeature :: rest)) = (.num 29, .num (-95), 6) ∧
    compute_initial_map_center (mkFC (pointNoCoords :: rest2)) =
      (.num 39.833, .num (-98.583), 6) :=
  ⟨rfl, rfl⟩

/-- C9: a feature with the unsupported geometry type `LineString` is skipped
wherever it occurs, without affecting the result; if it is the only feature,
the CONUS fallback applies. -/
theorem C9_linestring_skipped (cv : JVal) (pre rest : List JVal) :
    compute_initial_map_center (mkFC (pre ++ lsFeature cv :: rest)) =
      compute_initial_map_center (mkFC (pre ++ rest)) ∧
    compute_initial_map_center (mkFC [lsFeature cv]) = (.num 39.833, .num (-98.583), 4) := by
  constructor
  · rw [compute_mkFC, compute_mkFC, cimcLoop_skip]
  · rfl

/-- C10, counterexample: the claim says the CONUS fallback applies to the
rendered map only when both the filtered and unfiltered lists are empty.  With
a non-empty unfiltered list consisting of one LineString feature and a county
query matching nothing, the rendered viewport is the CONUS fallback anyway. -/
theorem C10_counterexample :
    app_viewport [lsFeature JVal.null] "travis" "(Any)" =
      .ok (.num 39.833, .num (-98.583), 4) ∧
    ([lsFeature JVal.null] : List JVal) ≠ [] :=
  ⟨rfl, by simp⟩

/-- C10, amended: when the filter selects no features but the unfiltered list
is non-empty, the viewport is computed from the full unfiltered list rather
than from the empty filtered result; when both lists are empty the CONUS
fallback viewport applies. -/
theorem C10_amended (all_features : List JVal) (cq sq : String) :
    (filterFeatures all_features cq sq = .ok [] → all_features ≠ [] →
      app_viewport all_features cq sq =
        .ok (compute_initial_map_center (mkFC all_features))) ∧
    (all_features = [] →
      app_viewport all_features cq sq = .ok (.num 39.833, .num (-98.583), 4)) := by
  constructor
  · intro h _
    simp only [app_viewport]
    rw [h]
    simp
  · rintro rfl
    rfl

/-- C10, witness: a Point feature matched by no county query still determines
the rendered viewport; the empty collection falls back to CONUS. -/
theorem C10_witness :
    app_viewport [pointFeature] "zzz" "(Any)" =
      .ok (compute_initial_map_center (mkFC [pointFeature])) ∧
    app_viewport [] "zzz" "(Any)" = .ok (.num 39.833, .num (-98.583), 4) :=
  ⟨(C10_amended [pointFeature] "zzz" "(Any)").1 rfl (by simp),
   (C10_amended [] "zzz" "(Any)").2 rfl⟩

end FlashFlood
